import Mathlib

/-!
Verification of the rule / load-balancer reconciliation core of the
aws-alb-ingress-controller.

The Go sources embedded here:
  internal/alb/rs/rule.go  — the Rule reconciler (`NewDesiredRule`,
    `Reconcile`, `create`, `modify`, `delete`, `needsModification`,
    `conditionsEqual`, `conditionToMap`, `priority`);
  internal/alb/lb (options part) — `options.needsModification` and the
    `loadBalancerChange` bitmask.

Go pointers to strings/bools that the code always dereferences are
modelled as plain values; nullable pointers (`*elbv2.Rule`, `RuleArn`,
`TargetGroupArn`, `webACLId`, `managedSG`) are `Option`.  Go slices are
`List` (the nil/empty-slice distinction of `reflect.DeepEqual` is not
exercised by any claim).  A Go runtime panic (nil dereference,
out-of-range index) is modelled as the value `none` of an `Option`-typed
result.  The cloud API client is a record of call-handler functions; the
calls a reconcile issues and the audit events it emits are returned
explicitly so that "zero cloud calls" is a statement about a value.
-/

namespace AlbIngress

/-- `intstr.IntOrString`: a value that is either an integer or a string. -/
inductive IntOrString : Type
  | int (n : Int)
  | str (s : String)
deriving DecidableEq

/-- `elbv2.Action`: a rule action (always type "forward" in this code),
with a nullable target-group ARN. -/
structure Action where
  targetGroupArn : Option String
  type : String
deriving DecidableEq

/-- `elbv2.RuleCondition`: a (field, value-list) pair. -/
structure RuleCondition where
  field : String
  values : List String
deriving DecidableEq

/-- `elbv2.Rule`: the cloud-side rule object. -/
structure ElbRule where
  isDefault : Bool
  priority : String
  actions : List Action
  conditions : List RuleCondition
  ruleArn : Option String
deriving DecidableEq

/-- The `service` struct of rule.go: name, port, resolved target port. -/
structure Service where
  name : String
  port : IntOrString
  targetPort : Int
deriving DecidableEq

/-- The Go zero value of `service`. -/
def Service.zero : Service :=
  { name := "", port := .int 0, targetPort := 0 }

/-- The `Rule` struct of rule.go: dual-state service binding and
dual-state cloud rule, plus the `deleted` flag. -/
structure Rule where
  svcCurrent : Service
  svcDesired : Service
  rsCurrent : Option ElbRule
  rsDesired : Option ElbRule
  deleted : Bool
deriving DecidableEq

/-! ### conditionToMap / conditionsEqual (rule.go lines 246-273) -/

/-- One Go map assignment `cMap[k] = v`: replace the binding if the key
is present, otherwise add it. -/
def mapInsert (m : List (String × List String)) (k : String) (v : List String) :
    List (String × List String) :=
  if m.any (fun p => decide (p.1 = k)) then
    m.map (fun p => if p.1 = k then (k, v) else p)
  else
    m ++ [(k, v)]

/-- `conditionToMap`: fold the condition list into a field → values map
(later conditions with the same field overwrite earlier ones, as in a Go
map). -/
def conditionToMap (cs : List RuleCondition) : List (String × List String) :=
  cs.foldl (fun m c => mapInsert m c.field c.values) []

/-- Go map lookup `cMap[k]` returning presence. -/
def lookupField (m : List (String × List String)) (k : String) :
    Option (List String) :=
  match m.find? (fun p => decide (p.1 = k)) with
  | some p => some p.2
  | none => none

/-- `conditionsEqual`: every key of `c1`'s map must exist in `c2`'s map
with a deeply equal value list.  (Keys present only in `c2` are not
examined — the asymmetry called out in the spec's §9 open question.) -/
def conditionsEqual (c1 c2 : List RuleCondition) : Bool :=
  (conditionToMap c1).all (fun p =>
    match lookupField (conditionToMap c2) p.1 with
    | none => false
    | some val => decide (p.2 = val))

/-- Spec-side symmetric equality, used only to state what the claim says
`conditionsEqual` computes: the two lists contain the same fields, each
mapping to a deeply equal value list. -/
def conditionsSameFields (c1 c2 : List RuleCondition) : Bool :=
  (conditionToMap c1).all (fun p =>
    match lookupField (conditionToMap c2) p.1 with
    | none => false
    | some val => decide (p.2 = val)) &&
  (conditionToMap c2).all (fun p =>
    match lookupField (conditionToMap c1) p.1 with
    | none => false
    | some val => decide (p.2 = val))

/-! ### needsModification (rule.go lines 221-244) -/

/-- The body of `needsModification` once both `current` and `desired`
are known non-nil: the Go `switch` with its short-circuit cases in
source order. -/
def needsModificationChecks (crs drs : ElbRule) (svcCur svcDes : Service) : Bool :=
  if ¬ (crs.actions = drs.actions) then true
  else if ¬ (conditionsEqual crs.conditions drs.conditions = true) then true
  else if ¬ (svcCur.name = svcDes.name) then true
  else if svcCur.targetPort ≠ svcDes.targetPort ∧ svcCur.targetPort ≠ 0 then true
  else false

/-- `Rule.needsModification`.  The first `switch` case returns `true`
when `current` is nil without touching `desired`; every later case
dereferences `desired`, so a nil `desired` there is a Go panic,
modelled as `none`. -/
def Rule.needsModification (r : Rule) : Option Bool :=
  match r.rsCurrent with
  | none => some true
  | some crs =>
    match r.rsDesired with
    | none => none
    | some drs => some (needsModificationChecks crs drs r.svcCurrent r.svcDesired)

/-! ### Cloud API model (albelbv2.ELBV2svc call contracts) -/

/-- `elbv2.CreateRuleInput`. -/
structure CreateRuleInput where
  actions : List Action
  conditions : List RuleCondition
  listenerArn : Option String
  priority : Int
deriving DecidableEq

/-- `elbv2.ModifyRuleInput`. -/
structure ModifyRuleInput where
  actions : List Action
  conditions : List RuleCondition
  ruleArn : Option String
deriving DecidableEq

/-- `elbv2.DeleteRuleInput`. -/
structure DeleteRuleInput where
  ruleArn : Option String
deriving DecidableEq

/-- One mutating cloud call, as recorded by a reconcile run. -/
inductive CloudCall : Type
  | createRule (input : CreateRuleInput)
  | modifyRule (input : ModifyRuleInput)
  | deleteRule (input : DeleteRuleInput)
deriving DecidableEq

/-- The cloud API client: each call either errs or returns its output
(`CreateRule`/`ModifyRule` return a list of rules). -/
structure Cloud where
  createRule : CreateRuleInput → Except String (List ElbRule)
  modifyRule : ModifyRuleInput → Except String (List ElbRule)
  deleteRule : DeleteRuleInput → Except String Unit

/-- `api.EventTypeNormal` / `api.EventTypeWarning`. -/
inductive EventType : Type
  | normal
  | warning
deriving DecidableEq

/-- One audit event emitted via `rOpts.Eventf`. -/
structure Event where
  type : EventType
  reason : String
deriving DecidableEq

/-- The observable outcome of a reconcile step: the rule afterwards, the
cloud calls issued, the events emitted, and the returned error. -/
structure RuleOutcome where
  rule : Rule
  calls : List CloudCall
  events : List Event
  err : Option String
deriving DecidableEq

/-! ### Target-group lookup -/

/-- One target group, as seen by the lookup collaborator: its backend
(service name and port) and its current ARN, if created. -/
structure TargetGroup where
  svcName : String
  svcPort : IntOrString
  currentArn : Option String

/-- `Rule.TargetGroupArn` (rule.go lines 144-155), over the collaborator
contract `LookupByBackend(name, port) -> index-or-not-found` and
`CurrentARN()`: not-found yields nil, found-but-uncreated yields the
(nil) current ARN. -/
def Rule.targetGroupArn (r : Rule) (tgs : List TargetGroup) : Option String :=
  match tgs.find? (fun t =>
      decide (t.svcName = r.svcDesired.name ∧ t.svcPort = r.svcDesired.port)) with
  | none => none
  | some t => t.currentArn

/-! ### priority encode / decode (rule.go lines 285-291, 42-48) -/

/-- Little-endian decimal digits of a natural number, as produced by the
standard decimal formatter (`fmt.Sprintf` with a `%v` verb). -/
def decDigits (n : Nat) : List Nat :=
  if _h : n < 10 then [n] else (n % 10) :: decDigits (n / 10)
decreasing_by exact Nat.div_lt_self (by omega) (by omega)

/-- The character of one decimal digit. -/
def digitChar (d : Nat) : Char := Char.ofNat (48 + d)

/-- Decimal string of a natural number. -/
def natToDecString (n : Nat) : String :=
  String.mk (((decDigits n).reverse).map digitChar)

/-- Decimal string of an integer (`fmt.Sprintf` of a Go int). -/
def intToDecString (i : Int) : String :=
  if i < 0 then String.mk ('-' :: (((decDigits (-i).toNat).reverse).map digitChar))
  else natToDecString i.toNat

/-- Is `c` one of the characters 0-9? -/
def isDigitChar (c : Char) : Bool := decide (48 ≤ c.toNat ∧ c.toNat ≤ 57)

/-- Numeric value of a digit character. -/
def charDigitVal (c : Char) : Nat := c.toNat - 48

/-- Parse a non-empty all-digit character list as a decimal number. -/
def parseDecDigits (l : List Char) : Option Nat :=
  if l = [] then none
  else if l.all isDigitChar then
    some (l.foldl (fun a c => 10 * a + charDigitVal c) 0)
  else none

/-- `strconv.ParseInt(s, 10, 64)` as used by `priority`: an optional
sign followed by decimal digits; the call site discards the error, and
on a syntax error Go's parse yields 0.  (Int64 overflow clamping is not
modelled; no claim involves out-of-range priorities.) -/
def parseInt10 (s : String) : Int :=
  match s.data with
  | [] => 0
  | c :: rest =>
    if c = '-' then
      match parseDecDigits rest with
      | some v => -(v : Int)
      | none => 0
    else if c = '+' then
      match parseDecDigits rest with
      | some v => (v : Int)
      | none => 0
    else
      match parseDecDigits (c :: rest) with
      | some v => (v : Int)
      | none => 0

/-- `priority` (rule.go lines 285-291): the sentinel "default" decodes
to 0, anything else through the integer parse. -/
def priority (s : String) : Int :=
  if s = "default" then 0 else parseInt10 s

/-! ### NewDesiredRule / NewCurrentRule (rule.go lines 20-88) -/

/-- `NewDesiredRuleOptions`.  `IgnoreHostHeader` is a nullable bool. -/
structure NewDesiredRuleOptions where
  priority : Int
  hostname : String
  ignoreHostHeader : Option Bool
  path : String
  svcName : String
  svcPort : IntOrString
  targetPort : Int

/-- `NewDesiredRule` (rule.go lines 32-71): one forward action with a
nil target ARN; priority 0 becomes the default rule with the textual
sentinel, otherwise the decimal string; host-header and path-pattern
conditions only for non-default rules. -/
def NewDesiredRule (o : NewDesiredRuleOptions) : Rule :=
  let isDef : Bool := decide (o.priority = 0)
  let prio : String := if o.priority = 0 then "default" else intToDecString o.priority
  let conds : List RuleCondition :=
    (if isDef = false ∧ o.hostname ≠ "" ∧ o.ignoreHostHeader = some false then
      [{ field := "host-header", values := [o.hostname] }] else []) ++
    (if isDef = false ∧ o.path ≠ "" then
      [{ field := "path-pattern", values := [o.path] }] else [])
  { svcCurrent := Service.zero,
    svcDesired := { name := o.svcName, port := o.svcPort, targetPort := o.targetPort },
    rsCurrent := none,
    rsDesired := some
      { isDefault := isDef, priority := prio,
        actions := [{ targetGroupArn := none, type := "forward" }],
        conditions := conds, ruleArn := none },
    deleted := false }

/-- `NewCurrentRuleOptions`. -/
structure NewCurrentRuleOptions where
  svcName : String
  svcPort : IntOrString
  targetPort : Int
  rule : ElbRule

/-- `NewCurrentRule` (rule.go lines 82-88). -/
def NewCurrentRule (o : NewCurrentRuleOptions) : Rule :=
  { svcCurrent := { name := o.svcName, port := o.svcPort, targetPort := o.targetPort },
    svcDesired := Service.zero,
    rsCurrent := some o.rule,
    rsDesired := none,
    deleted := false }

/-! ### create / modify / delete (rule.go lines 157-219) -/

/-- The `CreateRuleInput` that `Rule.create` assembles from the desired
rule and the listener ARN. -/
def mkCreateInput (drs : ElbRule) (listenerArn : Option String) : CreateRuleInput :=
  { actions := drs.actions, conditions := drs.conditions,
    listenerArn := listenerArn, priority := priority drs.priority }

/-- `Rule.create` (rule.go lines 157-174).  On cloud error: warning
event, wrapped error, state untouched.  On success the code indexes
`o.Rules[0]` without a bounds check, so an empty returned list is a Go
panic (`none`); otherwise the first returned rule and the desired
service binding are adopted as current. -/
def Rule.create (r : Rule) (cloud : Cloud) (listenerArn : Option String) :
    Option RuleOutcome :=
  match r.rsDesired with
  | none => none
  | some drs =>
    let input := mkCreateInput drs listenerArn
    match cloud.createRule input with
    | .error e =>
      some { rule := r, calls := [.createRule input],
             events := [{ type := .warning, reason := "ERROR" }],
             err := some ("Failed Rule creation. Error: " ++ e) }
    | .ok rules =>
      match rules with
      | [] => none
      | r0 :: _ =>
        some { rule := { r with rsCurrent := some r0, svcCurrent := r.svcDesired },
               calls := [.createRule input], events := [], err := none }

/-- The `ModifyRuleInput` that `Rule.modify` assembles. -/
def mkModifyInput (drs crs : ElbRule) : ModifyRuleInput :=
  { actions := drs.actions, conditions := drs.conditions, ruleArn := crs.ruleArn }

/-- `Rule.modify` (rule.go lines 176-195).  On cloud error: warning
event, wrapped error, state untouched.  On success the returned rule is
adopted as current only when the returned list is non-empty (guarded by
`len(o.Rules) > 0`), and the desired service binding is always adopted.
A nil desired or current is a Go nil dereference (`none`). -/
def Rule.modify (r : Rule) (cloud : Cloud) : Option RuleOutcome :=
  match r.rsDesired, r.rsCurrent with
  | some drs, some crs =>
    let input := mkModifyInput drs crs
    match cloud.modifyRule input with
    | .error e =>
      some { rule := r, calls := [.modifyRule input],
             events := [{ type := .warning, reason := "ERROR" }],
             err := some ("Error modifying rule: " ++ e) }
    | .ok rules =>
      let newCurrent := match rules with
        | [] => r.rsCurrent
        | r0 :: _ => some r0
      some { rule := { r with rsCurrent := newCurrent, svcCurrent := r.svcDesired },
             calls := [.modifyRule input], events := [], err := none }
  | _, _ => none

/-- `Rule.delete` (rule.go lines 197-219): nil current and default
current are guarded no-ops; otherwise a cloud delete by rule ARN, on
failure a warning event and a wrapped error, on success the `deleted`
flag is set (current is not nulled). -/
def Rule.delete (r : Rule) (cloud : Cloud) : RuleOutcome :=
  match r.rsCurrent with
  | none => { rule := r, calls := [], events := [], err := none }
  | some crs =>
    if crs.isDefault then { rule := r, calls := [], events := [], err := none }
    else
      let input : DeleteRuleInput := { ruleArn := crs.ruleArn }
      match cloud.deleteRule input with
      | .error e =>
        { rule := r, calls := [.deleteRule input],
          events := [{ type := .warning, reason := "ERROR" }],
          err := some ("Failed Rule deletion. Error: " ++ e) }
      | .ok _ =>
        { rule := { r with deleted := true }, calls := [.deleteRule input],
          events := [], err := none }

/-! ### Reconcile (rule.go lines 93-142) -/

/-- Set every action's target-group ARN to the resolved one. -/
def resolveActions (drs : ElbRule) (arn : Option String) : ElbRule :=
  { drs with actions := drs.actions.map (fun a => { a with targetGroupArn := arn }) }

/-- The ARN-resolution prelude of `Reconcile`: when a desired rule
exists, every desired action's target-group ARN is set from the lookup. -/
def resolveDesired (r : Rule) (tgs : List TargetGroup) : Rule :=
  match r.rsDesired with
  | none => r
  | some drs =>
    { r with rsDesired := some (resolveActions drs (r.targetGroupArn tgs)) }

/-- The `switch` of `Reconcile` after ARN resolution: delete when
desired is nil (skipped for nil or default current, with a normal DELETE
event on success); adopt desired as current when it is the default rule;
create when current is nil (normal CREATE event on success); modify when
`needsModification` (normal MODIFY event on success); otherwise no-op. -/
def reconcileSwitch (r : Rule) (cloud : Cloud) (listenerArn : Option String) :
    Option RuleOutcome :=
  match r.rsDesired with
  | none =>
    match r.rsCurrent with
    | none => some { rule := r, calls := [], events := [], err := none }
    | some crs =>
      if crs.isDefault then some { rule := r, calls := [], events := [], err := none }
      else
        let o := r.delete cloud
        if o.err.isSome then some o
        else some { o with events := o.events ++ [{ type := .normal, reason := "DELETE" }] }
  | some drs =>
    if drs.isDefault then
      some { rule := { r with rsCurrent := some drs }, calls := [], events := [],
             err := none }
    else
      match r.rsCurrent with
      | none =>
        match r.create cloud listenerArn with
        | none => none
        | some o =>
          if o.err.isSome then some o
          else some { o with events := o.events ++ [{ type := .normal, reason := "CREATE" }] }
      | some crs =>
        if needsModificationChecks crs drs r.svcCurrent r.svcDesired then
          match r.modify cloud with
          | none => none
          | some o =>
            if o.err.isSome then some o
            else some { o with events := o.events ++ [{ type := .normal, reason := "MODIFY" }] }
        else
          some { rule := r, calls := [], events := [], err := none }

/-- `Rule.Reconcile` (rule.go lines 93-142): ARN resolution, then the
case switch. -/
def Rule.reconcile (r : Rule) (cloud : Cloud) (tgs : List TargetGroup)
    (listenerArn : Option String) : Option RuleOutcome :=
  reconcileSwitch (resolveDesired r tgs) cloud listenerArn

/-! ### LoadBalancer options change-classification (lb package) -/

/-- The `opts` struct: nullable port slice, CIDR allow-list, nullable
WAF association id, nullable managed security-group ids. -/
structure Opts where
  ports : Option (List Int)
  inboundCidrs : List String
  webACLId : Option String
  managedSG : Option String
  managedInstanceSG : Option String

/-- The `options` current/desired pair. -/
structure LbOptions where
  current : Opts
  desired : Opts

/-- The `loadBalancerChange` bitmask flags (`1 << iota`). -/
def securityGroupsModified : Nat := 1

def subnetsModified : Nat := 2

def tagsModified : Nat := 4

def schemeModified : Nat := 8

def attributesModified : Nat := 16

def inboundCidrsModified : Nat := 32

def portsModified : Nat := 64

def ipAddressTypeModified : Nat := 128

def webACLAssociationModified : Nat := 256

/-- Modelled from the spec: `util.AWSStringSlice.Hash` (not under src/)
is an order-independent, collision-resistant content key over a string
slice; modelled as the multiset canonical form, the sorted list. -/
def awsStringSliceHash (l : List String) : List String :=
  l.insertionSort (fun a b => a ≤ b)

/-- The effect of `sort.Sort` on a `portList` before comparison:
ascending order (`Less` is `<` on int64). -/
def sortPorts (p : Option (List Int)) : Option (List Int) :=
  p.map (List.insertionSort (fun a b => a ≤ b))

/-- `options.needsModification` (lb package, part_000 lines 66-87):
CIDR hashes and sorted port lists are compared only when the current
ports slice and the current managed security group are populated; the
WAF association is compared as an optional string (one side absent, or
both present and different). -/
def LbOptions.needsModification (o : LbOptions) : Nat :=
  let changes : Nat := 0
  let changes : Nat :=
    if o.current.ports ≠ none ∧ o.current.managedSG ≠ none then
      let c : Nat :=
        if awsStringSliceHash o.current.inboundCidrs ≠
            awsStringSliceHash o.desired.inboundCidrs then
          changes ||| inboundCidrsModified
        else changes
      if sortPorts o.desired.ports ≠ sortPorts o.current.ports then
        c ||| portsModified
      else c
    else changes
  if (o.desired.webACLId ≠ none ∧ o.current.webACLId = none) ∨
      (o.desired.webACLId = none ∧ o.current.webACLId ≠ none) ∨
      (o.current.webACLId ≠ none ∧ o.desired.webACLId ≠ none ∧
        o.current.webACLId ≠ o.desired.webACLId) then
    changes ||| webACLAssociationModified
  else changes

/-! ### Concrete fixtures used by witness theorems -/

/-- A cloud stub with constant responses. -/
def stubCloud (createRes modifyRes : Except String (List ElbRule))
    (deleteRes : Except String Unit) : Cloud :=
  { createRule := fun _ => createRes, modifyRule := fun _ => modifyRes,
    deleteRule := fun _ => deleteRes }

def sampleCondition : RuleCondition :=
  { field := "host-header", values := ["foo.com"] }

def samplePathCondition : RuleCondition :=
  { field := "path-pattern", values := ["/a"] }

def sampleService : Service := { name := "web", port := .int 80, targetPort := 8080 }

/-- A cloud-side rule as `NewCurrentRule` would wrap it. -/
def sampleCloudRule : ElbRule :=
  { isDefault := false, priority := "5",
    actions := [{ targetGroupArn := none, type := "forward" }],
    conditions := [sampleCondition, samplePathCondition],
    ruleArn := some "arn:rule" }

/-- A desired rule with the same content as `sampleCloudRule` up to
condition order and the unresolved ARN. -/
def sampleDesiredRule : ElbRule :=
  { isDefault := false, priority := "5",
    actions := [{ targetGroupArn := none, type := "forward" }],
    conditions := [samplePathCondition, sampleCondition],
    ruleArn := none }

/-- A rule whose current state structurally equals its desired state. -/
def sampleEqualRule : Rule :=
  { svcCurrent := sampleService, svcDesired := sampleService,
    rsCurrent := some sampleCloudRule, rsDesired := some sampleDesiredRule,
    deleted := false }

/-- A current-only rule awaiting deletion. -/
def sampleDeleteRule : Rule :=
  { svcCurrent := sampleService, svcDesired := Service.zero,
    rsCurrent := some sampleCloudRule, rsDesired := none,
    deleted := false }

/-- A desired default rule paired with a live current rule. -/
def sampleDefaultRule : Rule :=
  { svcCurrent := sampleService, svcDesired := sampleService,
    rsCurrent := some sampleCloudRule,
    rsDesired := some { sampleDesiredRule with isDefault := true, priority := "default" },
    deleted := false }

/-- A current default rule carrying a cloud-assigned ARN. -/
def defaultCurrentRule : ElbRule :=
  { isDefault := true, priority := "default",
    actions := [{ targetGroupArn := none, type := "forward" }],
    conditions := [], ruleArn := some "arn:default" }

/-- A rule whose desired state is the default rule and structurally
equals its current state (same actions, conditions and service
binding), while the current side carries the cloud ARN. -/
def defaultEqualRule : Rule :=
  { svcCurrent := sampleService, svcDesired := sampleService,
    rsCurrent := some defaultCurrentRule,
    rsDesired := some { defaultCurrentRule with ruleArn := none },
    deleted := false }

/-! ### Lemmas about conditionToMap / conditionsEqual -/

/-- The per-key check inside `conditionsEqual`, characterised. -/
lemma condMatch_iff (m : List (String × List String)) (p : String × List String) :
    (match lookupField m p.1 with
      | none => false
      | some val => decide (p.2 = val)) = true ↔
      lookupField m p.1 = some p.2 := by
  cases h : lookupField m p.1 with
  | none => simp [h]
  | some val => simp [h, eq_comm]

/-- `conditionsEqual c1 c2` holds iff every binding of `c1`'s map is
present, with the same value list, in `c2`'s map. -/
lemma conditionsEqual_eq_true_iff (c1 c2 : List RuleCondition) :
    conditionsEqual c1 c2 = true ↔
      ∀ p ∈ conditionToMap c1,
        lookupField (conditionToMap c2) p.1 = some p.2 := by
  unfold conditionsEqual
  rw [List.all_eq_true]
  constructor
  · intro h p hp
    exact (condMatch_iff _ p).1 (h p hp)
  · intro h p hp
    exact (condMatch_iff _ p).2 (h p hp)

/-- When none of the fields of `cs` occurs among the keys of `m` and the
fields of `cs` are distinct, the map fold just appends the pairs. -/
lemma foldl_mapInsert_append (cs : List RuleCondition) (m : List (String × List String))
    (hdis : ∀ c ∈ cs, c.field ∉ m.map Prod.fst)
    (hnd : (cs.map RuleCondition.field).Nodup) :
    cs.foldl (fun m c => mapInsert m c.field c.values) m =
      m ++ cs.map (fun c => (c.field, c.values)) := by
  induction cs generalizing m with
  | nil => simp
  | cons c rest ih =>
    have hninm : c.field ∉ m.map Prod.fst := hdis c (List.mem_cons_self c rest)
    have hins : mapInsert m c.field c.values = m ++ [(c.field, c.values)] := by
      unfold mapInsert
      rw [if_neg]
      intro hany
      rcases List.any_eq_true.mp hany with ⟨p, hp, hpc⟩
      exact hninm (List.mem_map.mpr ⟨p, hp, of_decide_eq_true hpc⟩)
    rw [List.map_cons] at hnd
    have hnd' := hnd.of_cons
    have hcnotin : c.field ∉ rest.map RuleCondition.field :=
      (List.nodup_cons.mp hnd).1
    rw [List.foldl_cons, hins, ih (m ++ [(c.field, c.values)]) ?_ hnd']
    · simp
    · intro x hx
      rw [List.map_append]
      intro hmem
      rcases List.mem_append.mp hmem with h1 | h2
      · exact hdis x (List.mem_cons_of_mem c hx) h1
      · simp only [List.map_cons, List.map_nil, List.mem_singleton] at h2
        exact hcnotin (h2 ▸ List.mem_map.mpr ⟨x, hx, rfl⟩)

/-- With distinct fields, `conditionToMap` is just the list of
(field, values) pairs in order. -/
lemma conditionToMap_of_nodup (cs : List RuleCondition)
    (hnd : (cs.map RuleCondition.field).Nodup) :
    conditionToMap cs = cs.map (fun c => (c.field, c.values)) := by
  unfold conditionToMap
  rw [foldl_mapInsert_append cs [] (by simp) hnd]
  simp

/-- With distinct fields, searching the pair list for the field of a
member condition finds its (field, values) pair. -/
lemma find?_pairs_of_mem (cs : List RuleCondition) (x : RuleCondition)
    (hnd : (cs.map RuleCondition.field).Nodup) (hx : x ∈ cs) :
    List.find? (fun p => decide (p.1 = x.field)) (cs.map fun c => (c.field, c.values)) =
      some (x.field, x.values) := by
  induction cs with
  | nil => cases hx
  | cons c rest ih =>
    rw [List.map_cons] at hnd ⊢
    rw [List.find?_cons]
    by_cases hc : c.field = x.field
    · have hxc : x = c := by
        rcases List.mem_cons.mp hx with h | h
        · exact h
        · exact absurd (hc ▸ List.mem_map.mpr ⟨x, h, rfl⟩) (List.nodup_cons.mp hnd).1
      subst hxc
      simp
    · have hx' : x ∈ rest := by
        rcases List.mem_cons.mp hx with h | h
        · exact absurd (h ▸ rfl) hc
        · exact h
      have hdec : (decide ((c.field, c.values).1 = x.field)) = false :=
        decide_eq_false hc
      rw [hdec]
      exact ih (List.nodup_cons.mp hnd).2 hx'

/-- With distinct fields, looking up the field of a member condition
finds its value list. -/
lemma lookupField_of_mem (cs : List RuleCondition) (x : RuleCondition)
    (hnd : (cs.map RuleCondition.field).Nodup) (hx : x ∈ cs) :
    lookupField (cs.map fun c => (c.field, c.values)) x.field = some x.values := by
  unfold lookupField
  rw [find?_pairs_of_mem cs x hnd hx]

/-- A permutation of a condition list with distinct fields is accepted
by `conditionsEqual` against the canonical list. -/
lemma conditionsEqual_of_perm (c1 c2 : List RuleCondition)
    (hperm : c1.Perm c2) (hnd : (c2.map RuleCondition.field).Nodup) :
    conditionsEqual c1 c2 = true := by
  have hnd1 : (c1.map RuleCondition.field).Nodup :=
    (hperm.map RuleCondition.field).nodup_iff.mpr hnd
  rw [conditionsEqual_eq_true_iff]
  intro p hp
  rw [conditionToMap_of_nodup c1 hnd1] at hp
  rcases List.mem_map.mp hp with ⟨x, hx, rfl⟩
  rw [conditionToMap_of_nodup c2 hnd]
  exact lookupField_of_mem c2 x hnd (hperm.mem_iff.mp hx)

/-! ### needsModification characterisation -/

/-- The non-nil body of `needsModification` returns true exactly when
one of its four checks fires. -/
lemma needsModificationChecks_eq_true_iff (crs drs : ElbRule) (sc sd : Service) :
    needsModificationChecks crs drs sc sd = true ↔
      (crs.actions ≠ drs.actions ∨
       conditionsEqual crs.conditions drs.conditions = false ∨
       sc.name ≠ sd.name ∨
       (sc.targetPort ≠ sd.targetPort ∧ sc.targetPort ≠ 0)) := by
  unfold needsModificationChecks
  by_cases h1 : crs.actions = drs.actions <;>
    by_cases h2 : conditionsEqual crs.conditions drs.conditions = true <;>
      by_cases h3 : sc.name = sd.name <;>
        by_cases h4 : sc.targetPort ≠ sd.targetPort ∧ sc.targetPort ≠ 0 <;>
          simp [h1, h2, h3, h4]

/-! ### Claim theorems -/

/-- C1 counterexample: `conditionsEqual` is not the claimed symmetric
"same fields" equality — against an empty first list it accepts a second
list that has an extra (differing) field, because only the keys of side
one are checked. -/
theorem conditionsEqual_extra_field_cex :
    conditionsEqual [] [{ field := "host-header", values := ["foo.com"] }] = true ∧
    conditionsSameFields [] [{ field := "host-header", values := ["foo.com"] }] = false := by
  exact ⟨rfl, rfl⟩

/-- C1 (amended): `conditionsEqual c1 c2` returns true iff every field
of `c1`'s map is bound in `c2`'s map to a deeply equal value list
(fields present only in `c2` are ignored); in particular, for every
permutation of a condition list with distinct fields it returns true
against the canonical list, and any single differing value, or field of
`c1` missing from `c2`, makes it false. -/
theorem conditionsEqual_subset_and_perm :
    (∀ c1 c2 : List RuleCondition,
      conditionsEqual c1 c2 = true ↔
        ∀ p ∈ conditionToMap c1,
          lookupField (conditionToMap c2) p.1 = some p.2) ∧
    (∀ c1 c2 : List RuleCondition, c1.Perm c2 →
      (c2.map RuleCondition.field).Nodup → conditionsEqual c1 c2 = true) :=
  ⟨conditionsEqual_eq_true_iff, conditionsEqual_of_perm⟩

/-- Witness for C1 at a concrete input: the swapped two-condition list
is accepted, by the permutation part of the theorem. -/
theorem conditionsEqual_subset_and_perm_witness :
    conditionsEqual
      [{ field := "path-pattern", values := ["/a"] },
       { field := "host-header", values := ["foo.com"] }]
      [{ field := "host-header", values := ["foo.com"] },
       { field := "path-pattern", values := ["/a"] }] = true :=
  conditionsEqual_subset_and_perm.2 _ _
    (List.Perm.swap _ _ _) (by decide)

/-- C2: with non-nil current and desired, `needsModification` fires on
the first of: action lists differ, condition sets not equal, service
name differs, target ports differ with a non-zero current target port;
it is false when the ports differ but the current target port is the
zero legacy sentinel, and true when the current target port is non-zero
and differs — and a nil current alone already fires it. -/
theorem needsModification_spec :
    (∀ r : Rule, r.rsCurrent = none → r.needsModification = some true) ∧
    (∀ (r : Rule) (crs drs : ElbRule),
      r.rsCurrent = some crs → r.rsDesired = some drs →
      ((r.needsModification = some true ↔
        (crs.actions ≠ drs.actions ∨
         conditionsEqual crs.conditions drs.conditions = false ∨
         r.svcCurrent.name ≠ r.svcDesired.name ∨
         (r.svcCurrent.targetPort ≠ r.svcDesired.targetPort ∧
          r.svcCurrent.targetPort ≠ 0))) ∧
       (crs.actions = drs.actions →
        conditionsEqual crs.conditions drs.conditions = true →
        r.svcCurrent.name = r.svcDesired.name →
        r.svcCurrent.targetPort ≠ r.svcDesired.targetPort →
        r.svcCurrent.targetPort = 0 →
        r.needsModification = some false) ∧
       (crs.actions = drs.actions →
        conditionsEqual crs.conditions drs.conditions = true →
        r.svcCurrent.name = r.svcDesired.name →
        r.svcCurrent.targetPort ≠ r.svcDesired.targetPort →
        r.svcCurrent.targetPort ≠ 0 →
        r.needsModification = some true))) := by
  constructor
  · intro r hc
    unfold Rule.needsModification
    rw [hc]
  · intro r crs drs hc hd
    have hval : r.needsModification =
        some (needsModificationChecks crs drs r.svcCurrent r.svcDesired) := by
      unfold Rule.needsModification
      rw [hc, hd]
    refine ⟨?_, ?_, ?_⟩
    · rw [hval]
      rw [Option.some_inj]
      exact needsModificationChecks_eq_true_iff crs drs r.svcCurrent r.svcDesired
    · intro h1 h2 h3 _h4 h5
      rw [hval, Option.some_inj]
      rw [← Bool.not_eq_true]
      rw [needsModificationChecks_eq_true_iff]
      push_neg
      refine ⟨h1, ?_, h3, fun _ => h5⟩
      rw [h2]
      simp
    · intro h1 h2 h3 h4 h5
      rw [hval, Option.some_inj]
      rw [needsModificationChecks_eq_true_iff]
      exact Or.inr (Or.inr (Or.inr ⟨h4, h5⟩))

/-! ### Decimal round-trip lemmas -/

lemma decDigits_lt_ten (n : Nat) : ∀ d ∈ decDigits n, d < 10 := by
  induction n using Nat.strong_induction_on with
  | _ n ih =>
    rw [decDigits]
    split
    · next h =>
      intro d hd
      rw [List.mem_singleton] at hd
      omega
    · next h =>
      intro d hd
      rcases List.mem_cons.mp hd with h1 | h2
      · omega
      · exact ih (n / 10) (Nat.div_lt_self (by omega) (by omega)) d h2

lemma decDigits_ne_nil (n : Nat) : decDigits n ≠ [] := by
  rw [decDigits]
  split <;> simp

lemma foldr_decDigits (n : Nat) :
    (decDigits n).foldr (fun d acc => 10 * acc + d) 0 = n := by
  induction n using Nat.strong_induction_on with
  | _ n ih =>
    rw [decDigits]
    split
    · next h => simp
    · next h =>
      rw [List.foldr_cons, ih (n / 10) (Nat.div_lt_self (by omega) (by omega))]
      omega

lemma charDigitVal_digitChar (d : Nat) (h : d < 10) :
    charDigitVal (digitChar d) = d := by
  interval_cases d <;> rfl

lemma isDigitChar_digitChar (d : Nat) (h : d < 10) :
    isDigitChar (digitChar d) = true := by
  interval_cases d <;> rfl

lemma digitChar_ne_dash (d : Nat) (h : d < 10) : digitChar d ≠ '-' := by
  interval_cases d <;> decide

lemma digitChar_ne_plus (d : Nat) (h : d < 10) : digitChar d ≠ '+' := by
  interval_cases d <;> decide

lemma digitChar_ne_d (d : Nat) (h : d < 10) : digitChar d ≠ 'd' := by
  interval_cases d <;> decide

lemma parseDecDigits_encode (n : Nat) :
    parseDecDigits (((decDigits n).reverse).map digitChar) = some n := by
  unfold parseDecDigits
  rw [if_neg, if_pos]
  · congr 1
    rw [List.foldl_map]
    rw [List.foldl_ext (fun a d => 10 * a + charDigitVal (digitChar d)) (fun a d => 10 * a + d)]
    · rw [List.foldl_reverse]
      exact foldr_decDigits n
    · intro a d hd
      rw [charDigitVal_digitChar d
        (decDigits_lt_ten n d (List.mem_reverse.mp hd))]
  · rw [List.all_eq_true]
    intro c hc
    rcases List.mem_map.mp hc with ⟨d, hd, rfl⟩
    exact isDigitChar_digitChar d (decDigits_lt_ten n d (List.mem_reverse.mp hd))
  · simp [decDigits_ne_nil n]

lemma parseInt10_natToDecString (n : Nat) :
    parseInt10 (natToDecString n) = (n : Int) := by
  unfold natToDecString parseInt10
  cases hrev : (decDigits n).reverse with
  | nil => exact absurd (List.reverse_eq_nil_iff.mp hrev) (decDigits_ne_nil n)
  | cons d t =>
    have hd10 : d < 10 :=
      decDigits_lt_ten n d (List.mem_reverse.mp (hrev ▸ List.mem_cons_self d t))
    have henc := parseDecDigits_encode n
    rw [hrev] at henc
    rw [List.map_cons] at henc ⊢
    show (if digitChar d = '-' then
        match parseDecDigits (t.map digitChar) with
        | some v => -(v : Int)
        | none => 0
      else if digitChar d = '+' then
        match parseDecDigits (t.map digitChar) with
        | some v => (v : Int)
        | none => 0
      else
        match parseDecDigits (digitChar d :: t.map digitChar) with
        | some v => (v : Int)
        | none => 0) = (n : Int)
    rw [if_neg (digitChar_ne_dash d hd10), if_neg (digitChar_ne_plus d hd10), henc]

lemma natToDecString_ne_default (n : Nat) : natToDecString n ≠ "default" := by
  intro h
  have hdata : (((decDigits n).reverse).map digitChar) = "default".data := by
    have := congrArg String.data h
    exact this
  cases hrev : (decDigits n).reverse with
  | nil => exact absurd (List.reverse_eq_nil_iff.mp hrev) (decDigits_ne_nil n)
  | cons d t =>
    rw [hrev, List.map_cons] at hdata
    have hd10 : d < 10 :=
      decDigits_lt_ten n d (List.mem_reverse.mp (hrev ▸ List.mem_cons_self d t))
    have hhead : digitChar d = 'd' := (List.cons.injEq _ _ _ _ ▸ hdata).1
    exact digitChar_ne_d d hd10 hhead

/-- The decimal string of a positive integer decodes back to it through
`priority`. -/
lemma priority_intToDecString (n : Int) (h : 0 < n) :
    priority (intToDecString n) = n := by
  unfold intToDecString
  rw [if_neg (by omega)]
  unfold priority
  rw [if_neg (natToDecString_ne_default n.toNat)]
  rw [parseInt10_natToDecString n.toNat]
  exact Int.toNat_of_nonneg (by omega)

/-! ### Reconcile case lemmas -/

lemma resolveDesired_of_none (r : Rule) (tgs : List TargetGroup)
    (h : r.rsDesired = none) : resolveDesired r tgs = r := by
  unfold resolveDesired
  rw [h]

lemma resolveDesired_of_some (r : Rule) (tgs : List TargetGroup) (drs : ElbRule)
    (h : r.rsDesired = some drs) :
    resolveDesired r tgs =
      { r with rsDesired := some (resolveActions drs (r.targetGroupArn tgs)) } := by
  unfold resolveDesired
  rw [h]

lemma delete_eq_of_ok (r : Rule) (cloud : Cloud) (crs : ElbRule) (u : Unit)
    (h2 : r.rsCurrent = some crs) (h3 : crs.isDefault = false)
    (hok : cloud.deleteRule { ruleArn := crs.ruleArn } = .ok u) :
    r.delete cloud =
      { rule := { r with deleted := true },
        calls := [.deleteRule { ruleArn := crs.ruleArn }],
        events := [], err := none } := by
  unfold Rule.delete
  rw [h2]
  simp only [h3, Bool.false_eq_true, if_false]
  rw [hok]

lemma delete_eq_of_error (r : Rule) (cloud : Cloud) (crs : ElbRule) (e : String)
    (h2 : r.rsCurrent = some crs) (h3 : crs.isDefault = false)
    (herr : cloud.deleteRule { ruleArn := crs.ruleArn } = .error e) :
    r.delete cloud =
      { rule := r,
        calls := [.deleteRule { ruleArn := crs.ruleArn }],
        events := [{ type := .warning, reason := "ERROR" }],
        err := some ("Failed Rule deletion. Error: " ++ e) } := by
  unfold Rule.delete
  rw [h2]
  simp only [h3, Bool.false_eq_true, if_false]
  rw [herr]

/-! ### Claim theorems about Reconcile -/

/-- C3 (amended): reconciling a rule with a non-default desired state
whose current already structurally equals it — same actions after
target-ARN resolution, same condition set up to insertion order (with
distinct condition fields), same service binding — issues zero cloud
calls, returns no error, and leaves current (and the whole rule, except
the resolved desired) unchanged.  (For a desired default rule the same
zero-call no-error verdict holds but current is replaced by desired —
see the counterexample.) -/
theorem reconcile_noop_of_structurally_equal
    (r : Rule) (cloud : Cloud) (tgs : List TargetGroup) (la : Option String)
    (crs drs : ElbRule)
    (hd : r.rsDesired = some drs) (hdef : drs.isDefault = false)
    (hc : r.rsCurrent = some crs)
    (hact : crs.actions = (resolveActions drs (r.targetGroupArn tgs)).actions)
    (hcond : crs.conditions.Perm drs.conditions)
    (hnd : (drs.conditions.map RuleCondition.field).Nodup)
    (hsvc : r.svcCurrent = r.svcDesired) :
    r.reconcile cloud tgs la = some
      { rule := { r with rsDesired := some (resolveActions drs (r.targetGroupArn tgs)) },
        calls := [], events := [], err := none } := by
  unfold Rule.reconcile
  rw [resolveDesired_of_some r tgs drs hd]
  unfold reconcileSwitch
  dsimp only
  have hdef' : (resolveActions drs (r.targetGroupArn tgs)).isDefault = false := hdef
  simp only [hdef', Bool.false_eq_true, if_false]
  rw [hc]
  dsimp only
  have hchecks : needsModificationChecks crs (resolveActions drs (r.targetGroupArn tgs))
      r.svcCurrent r.svcDesired = false := by
    rw [← Bool.not_eq_true, needsModificationChecks_eq_true_iff]
    push_neg
    refine ⟨hact, ?_, by rw [hsvc],
      fun hne => absurd (show r.svcCurrent.targetPort = r.svcDesired.targetPort by
        rw [hsvc]) hne⟩
    have : conditionsEqual crs.conditions
        (resolveActions drs (r.targetGroupArn tgs)).conditions = true :=
      conditionsEqual_of_perm _ _ hcond hnd
    rw [this]
    simp
  simp only [hchecks, Bool.false_eq_true, if_false]

/-- C4: the default rule is immune — a desired default rule issues no
cloud call and unconditionally replaces current with (the resolved)
desired, and deleting a current default rule (nil desired) is a silent
no-op with no error. -/
theorem reconcile_default_immunity :
    (∀ (r : Rule) (cloud : Cloud) (tgs : List TargetGroup) (la : Option String)
        (drs : ElbRule),
      r.rsDesired = some drs → drs.isDefault = true →
      r.reconcile cloud tgs la = some
        { rule := { r with
            rsDesired := some (resolveActions drs (r.targetGroupArn tgs)),
            rsCurrent := some (resolveActions drs (r.targetGroupArn tgs)) },
          calls := [], events := [], err := none }) ∧
    (∀ (r : Rule) (cloud : Cloud) (tgs : List TargetGroup) (la : Option String)
        (crs : ElbRule),
      r.rsDesired = none → r.rsCurrent = some crs → crs.isDefault = true →
      r.reconcile cloud tgs la = some
        { rule := r, calls := [], events := [], err := none }) := by
  constructor
  · intro r cloud tgs la drs hd hdef
    unfold Rule.reconcile
    rw [resolveDesired_of_some r tgs drs hd]
    unfold reconcileSwitch
    dsimp only
    have hdef' : (resolveActions drs (r.targetGroupArn tgs)).isDefault = true := hdef
    simp only [hdef', if_true]
  · intro r cloud tgs la crs hd hc hdef
    unfold Rule.reconcile
    rw [resolveDesired_of_none r tgs hd]
    unfold reconcileSwitch
    rw [hd, hc]
    dsimp only
    simp only [hdef, if_true]

/-- C5: deleting a non-default rule issues a cloud delete by rule ARN;
on success the `deleted` flag is set (current is not nulled) and a
normal DELETE event is emitted; on failure a wrapped error is returned,
a warning event is emitted, and `deleted` is not set. -/
theorem reconcile_delete_spec
    (r : Rule) (cloud : Cloud) (tgs : List TargetGroup) (la : Option String)
    (crs : ElbRule)
    (hd : r.rsDesired = none) (hc : r.rsCurrent = some crs)
    (hdef : crs.isDefault = false) :
    (∀ u, cloud.deleteRule { ruleArn := crs.ruleArn } = .ok u →
      r.reconcile cloud tgs la = some
        { rule := { r with deleted := true },
          calls := [.deleteRule { ruleArn := crs.ruleArn }],
          events := [{ type := .normal, reason := "DELETE" }],
          err := none }) ∧
    (∀ e, cloud.deleteRule { ruleArn := crs.ruleArn } = .error e →
      r.reconcile cloud tgs la = some
        { rule := r,
          calls := [.deleteRule { ruleArn := crs.ruleArn }],
          events := [{ type := .warning, reason := "ERROR" }],
          err := some ("Failed Rule deletion. Error: " ++ e) }) := by
  constructor
  · intro u hok
    unfold Rule.reconcile
    rw [resolveDesired_of_none r tgs hd]
    unfold reconcileSwitch
    rw [hd, hc]
    dsimp only
    simp only [hdef, Bool.false_eq_true, if_false]
    rw [delete_eq_of_ok r cloud crs u hc hdef hok]
    simp [hc, hd]
  · intro e herr
    unfold Rule.reconcile
    rw [resolveDesired_of_none r tgs hd]
    unfold reconcileSwitch
    rw [hd, hc]
    dsimp only
    simp only [hdef, Bool.false_eq_true, if_false]
    rw [delete_eq_of_error r cloud crs e hc hdef herr]
    simp

/-- C6: a failed cloud create or modify call leaves the rule — its
current snapshot and current service binding — entirely unchanged and
returns a wrapped error, so a later pass reaches the same verdict. -/
theorem create_modify_error_preserves_state :
    (∀ (r : Rule) (cloud : Cloud) (la : Option String) (drs : ElbRule) (e : String),
      r.rsDesired = some drs →
      cloud.createRule (mkCreateInput drs la) = .error e →
      r.create cloud la = some
        { rule := r, calls := [.createRule (mkCreateInput drs la)],
          events := [{ type := .warning, reason := "ERROR" }],
          err := some ("Failed Rule creation. Error: " ++ e) }) ∧
    (∀ (r : Rule) (cloud : Cloud) (drs crs : ElbRule) (e : String),
      r.rsDesired = some drs → r.rsCurrent = some crs →
      cloud.modifyRule (mkModifyInput drs crs) = .error e →
      r.modify cloud = some
        { rule := r, calls := [.modifyRule (mkModifyInput drs crs)],
          events := [{ type := .warning, reason := "ERROR" }],
          err := some ("Error modifying rule: " ++ e) }) := by
  constructor
  · intro r cloud la drs e hd herr
    unfold Rule.create
    rw [hd]
    dsimp only
    rw [herr]
  · intro r cloud drs crs e hd hc herr
    unfold Rule.modify
    rw [hd, hc]
    dsimp only
    rw [herr]

/-- C7: a modify call that succeeds but returns zero rules is
tolerated — no error, the prior current rule snapshot is kept, and the
desired service binding is still adopted. -/
theorem modify_zero_rules_tolerated
    (r : Rule) (cloud : Cloud) (drs crs : ElbRule)
    (hd : r.rsDesired = some drs) (hc : r.rsCurrent = some crs)
    (hok : cloud.modifyRule (mkModifyInput drs crs) = .ok []) :
    r.modify cloud = some
      { rule := { r with svcCurrent := r.svcDesired },
        calls := [.modifyRule (mkModifyInput drs crs)],
        events := [], err := none } := by
  unfold Rule.modify
  rw [hd, hc]
  dsimp only
  rw [hok]

/-- C10: `create` adopts the first returned rule without a bounds
check — a successful create response with an empty rule list has no
defined result (a Go panic), while `modify` guards the same adoption
with a length check and completes without error. -/
theorem create_unguarded_first_rule :
    (∀ (r : Rule) (cloud : Cloud) (la : Option String) (drs : ElbRule),
      r.rsDesired = some drs →
      cloud.createRule (mkCreateInput drs la) = .ok [] →
      r.create cloud la = none) ∧
    (∀ (r : Rule) (cloud : Cloud) (drs crs : ElbRule),
      r.rsDesired = some drs → r.rsCurrent = some crs →
      cloud.modifyRule (mkModifyInput drs crs) = .ok [] →
      (r.modify cloud).isSome = true ∧
      (r.modify cloud).map RuleOutcome.err = some none) := by
  constructor
  · intro r cloud la drs hd hok
    unfold Rule.create
    rw [hd]
    dsimp only
    rw [hok]
  · intro r cloud drs crs hd hc hok
    rw [modify_zero_rules_tolerated r cloud drs crs hd hc hok]
    exact ⟨rfl, rfl⟩

/-- C9: priority encoding round-trips — a desired rule built with
priority 0 carries the sentinel "default", which decodes to 0; one built
with a positive priority carries its decimal string, which decodes back
to the same integer, and the create call input carries that integer. -/
theorem priority_roundtrip :
    priority "default" = 0 ∧
    (∀ o : NewDesiredRuleOptions, o.priority = 0 →
      (NewDesiredRule o).rsDesired.map ElbRule.priority = some "default") ∧
    (∀ o : NewDesiredRuleOptions, 0 < o.priority →
      (NewDesiredRule o).rsDesired.map ElbRule.priority =
        some (intToDecString o.priority) ∧
      priority (intToDecString o.priority) = o.priority ∧
      (∀ (drs : ElbRule) (la : Option String),
        (NewDesiredRule o).rsDesired = some drs →
        (mkCreateInput drs la).priority = o.priority)) := by
  refine ⟨rfl, ?_, ?_⟩
  · intro o h0
    unfold NewDesiredRule
    dsimp only
    rw [if_pos h0]
    rfl
  · intro o hpos
    have hne : ¬ o.priority = 0 := by omega
    refine ⟨?_, priority_intToDecString o.priority hpos, ?_⟩
    · unfold NewDesiredRule
      dsimp only
      rw [if_neg hne]
      rfl
    · intro drs la hdrs
      unfold NewDesiredRule at hdrs
      dsimp only at hdrs
      rw [Option.some_inj] at hdrs
      have hp : drs.priority = if o.priority = 0 then "default" else intToDecString o.priority := by
        rw [← hdrs]
      unfold mkCreateInput
      dsimp only
      rw [hp, if_neg hne]
      exact priority_intToDecString o.priority hpos

/-- C8: the options change-verdict is an OR of independent flags — the
inbound-CIDR bit and the ports bit can be set only when the current
ports slice and the current managed security group are populated, and
then exactly when the CIDR hashes respectively the sorted port lists
differ; the WAF-association bit is set exactly when one side's id is
absent and the other present, or both are present with different
values; no other bit is ever set. -/
theorem options_needsModification_bitmask (o : LbOptions) :
    (o.needsModification &&& inboundCidrsModified ≠ 0 ↔
      ((o.current.ports ≠ none ∧ o.current.managedSG ≠ none) ∧
       awsStringSliceHash o.current.inboundCidrs ≠
         awsStringSliceHash o.desired.inboundCidrs)) ∧
    (o.needsModification &&& portsModified ≠ 0 ↔
      ((o.current.ports ≠ none ∧ o.current.managedSG ≠ none) ∧
       sortPorts o.desired.ports ≠ sortPorts o.current.ports)) ∧
    (o.needsModification &&& webACLAssociationModified ≠ 0 ↔
      ((o.desired.webACLId ≠ none ∧ o.current.webACLId = none) ∨
       (o.desired.webACLId = none ∧ o.current.webACLId ≠ none) ∨
       (o.current.webACLId ≠ none ∧ o.desired.webACLId ≠ none ∧
        o.current.webACLId ≠ o.desired.webACLId))) ∧
    (o.needsModification |||
      (inboundCidrsModified ||| portsModified ||| webACLAssociationModified) =
      (inboundCidrsModified ||| portsModified ||| webACLAssociationModified)) := by
  unfold LbOptions.needsModification
  unfold inboundCidrsModified portsModified webACLAssociationModified
  by_cases hg : (o.current.ports ≠ none ∧ o.current.managedSG ≠ none) <;>
    by_cases hh : awsStringSliceHash o.current.inboundCidrs ≠
        awsStringSliceHash o.desired.inboundCidrs <;>
      by_cases hp : sortPorts o.desired.ports ≠ sortPorts o.current.ports <;>
        by_cases hw : ((o.desired.webACLId ≠ none ∧ o.current.webACLId = none) ∨
            (o.desired.webACLId = none ∧ o.current.webACLId ≠ none) ∨
            (o.current.webACLId ≠ none ∧ o.desired.webACLId ≠ none ∧
             o.current.webACLId ≠ o.desired.webACLId)) <;>
          (simp [hg, hh, hp, hw] <;> decide)

/-- C3 counterexample: a rule whose desired state is the default rule
and whose current state structurally equals it (same actions after
resolution, same conditions, same service binding) reconciles with zero
cloud calls and no error, yet its current snapshot is NOT left
unchanged — it is replaced by the desired object, dropping the
cloud-assigned rule ARN. -/
theorem reconcile_noop_default_replaces_current_cex :
    (defaultCurrentRule.actions =
      (resolveActions { defaultCurrentRule with ruleArn := none }
        (defaultEqualRule.targetGroupArn [])).actions) ∧
    (defaultCurrentRule.conditions =
      ({ defaultCurrentRule with ruleArn := none } : ElbRule).conditions) ∧
    defaultEqualRule.svcCurrent = defaultEqualRule.svcDesired ∧
    ((Rule.reconcile defaultEqualRule
        (stubCloud (.error "x") (.error "x") (.error "x")) [] none).map
      (fun o => (o.calls, o.err, decide (o.rule.rsCurrent = defaultEqualRule.rsCurrent)))
      = some ([], none, false)) := by
  refine ⟨rfl, rfl, rfl, ?_⟩
  decide

/-! ### Witness theorems -/

/-- Witness for C2 at a concrete rule: differing target ports with a
zero current target port do not trigger modification. -/
theorem needsModification_spec_witness :
    ({ svcCurrent := { sampleService with targetPort := 0 },
       svcDesired := sampleService,
       rsCurrent := some sampleCloudRule, rsDesired := some sampleCloudRule,
       deleted := false } : Rule).needsModification = some false :=
  (needsModification_spec.2 _ sampleCloudRule sampleCloudRule rfl rfl).2.1
    rfl (by decide) rfl (by decide) rfl

/-- Witness for C3 at a concrete rule: current equal to desired up to
condition order, reconcile is a no-op. -/
theorem reconcile_noop_witness :
    Rule.reconcile sampleEqualRule (stubCloud (.error "x") (.error "x") (.error "x"))
        [] none = some
      { rule := { sampleEqualRule with
          rsDesired := some (resolveActions sampleDesiredRule
            (sampleEqualRule.targetGroupArn [])) },
        calls := [], events := [], err := none } :=
  reconcile_noop_of_structurally_equal sampleEqualRule
    (stubCloud (.error "x") (.error "x") (.error "x")) [] none
    sampleCloudRule sampleDesiredRule rfl rfl rfl (by decide)
    (List.Perm.swap _ _ _) (by decide) rfl

/-- Witness for C4 at concrete rules: a desired default rule replaces
current with no calls, and deleting a current default rule is a no-op. -/
theorem reconcile_default_immunity_witness :
    (Rule.reconcile sampleDefaultRule
        (stubCloud (.error "x") (.error "x") (.error "x")) [] none = some
      { rule := { sampleDefaultRule with
          rsDesired := some (resolveActions
            { sampleDesiredRule with isDefault := true, priority := "default" }
            (sampleDefaultRule.targetGroupArn [])),
          rsCurrent := some (resolveActions
            { sampleDesiredRule with isDefault := true, priority := "default" }
            (sampleDefaultRule.targetGroupArn [])) },
        calls := [], events := [], err := none }) ∧
    (Rule.reconcile
        ({ sampleDeleteRule with
            rsCurrent := some { sampleCloudRule with isDefault := true } } : Rule)
        (stubCloud (.error "x") (.error "x") (.error "x")) [] none = some
      { rule := { sampleDeleteRule with
          rsCurrent := some { sampleCloudRule with isDefault := true } },
        calls := [], events := [], err := none }) :=
  ⟨reconcile_default_immunity.1 sampleDefaultRule
      (stubCloud (.error "x") (.error "x") (.error "x")) [] none
      { sampleDesiredRule with isDefault := true, priority := "default" } rfl rfl,
   reconcile_default_immunity.2 _
      (stubCloud (.error "x") (.error "x") (.error "x")) [] none
      { sampleCloudRule with isDefault := true } rfl rfl rfl⟩

/-- Witness for C5 at a concrete rule: a successful delete marks the
deleted flag and keeps current; a failed delete returns the wrapped
error. -/
theorem reconcile_delete_spec_witness :
    (Rule.reconcile sampleDeleteRule (stubCloud (.ok []) (.ok []) (.ok ())) [] none =
      some { rule := { sampleDeleteRule with deleted := true },
             calls := [.deleteRule { ruleArn := sampleCloudRule.ruleArn }],
             events := [{ type := .normal, reason := "DELETE" }],
             err := none }) ∧
    (Rule.reconcile sampleDeleteRule
        (stubCloud (.ok []) (.ok []) (.error "boom")) [] none =
      some { rule := sampleDeleteRule,
             calls := [.deleteRule { ruleArn := sampleCloudRule.ruleArn }],
             events := [{ type := .warning, reason := "ERROR" }],
             err := some ("Failed Rule deletion. Error: " ++ "boom") }) :=
  ⟨(reconcile_delete_spec sampleDeleteRule (stubCloud (.ok []) (.ok []) (.ok ()))
      [] none sampleCloudRule rfl rfl rfl).1 () rfl,
   (reconcile_delete_spec sampleDeleteRule (stubCloud (.ok []) (.ok []) (.error "boom"))
      [] none sampleCloudRule rfl rfl rfl).2 "boom" rfl⟩

/-- Witness for C6 at a concrete rule: failed create and modify calls
leave the rule unchanged and return wrapped errors. -/
theorem create_modify_error_preserves_state_witness :
    (Rule.create sampleEqualRule (stubCloud (.error "boom") (.error "boom") (.ok ()))
        none = some
      { rule := sampleEqualRule,
        calls := [.createRule (mkCreateInput sampleDesiredRule none)],
        events := [{ type := .warning, reason := "ERROR" }],
        err := some ("Failed Rule creation. Error: " ++ "boom") }) ∧
    (Rule.modify sampleEqualRule (stubCloud (.error "boom") (.error "boom") (.ok ()))
      = some
      { rule := sampleEqualRule,
        calls := [.modifyRule (mkModifyInput sampleDesiredRule sampleCloudRule)],
        events := [{ type := .warning, reason := "ERROR" }],
        err := some ("Error modifying rule: " ++ "boom") }) :=
  ⟨create_modify_error_preserves_state.1 sampleEqualRule
      (stubCloud (.error "boom") (.error "boom") (.ok ())) none
      sampleDesiredRule "boom" rfl rfl,
   create_modify_error_preserves_state.2 sampleEqualRule
      (stubCloud (.error "boom") (.error "boom") (.ok ()))
      sampleDesiredRule sampleCloudRule "boom" rfl rfl rfl⟩

/-- Witness for C7 at a concrete rule: modify returning zero rules
keeps the prior current snapshot and adopts the desired service. -/
theorem modify_zero_rules_tolerated_witness :
    Rule.modify sampleEqualRule (stubCloud (.ok []) (.ok []) (.ok ())) = some
      { rule := { sampleEqualRule with svcCurrent := sampleEqualRule.svcDesired },
        calls := [.modifyRule (mkModifyInput sampleDesiredRule sampleCloudRule)],
        events := [], err := none } :=
  modify_zero_rules_tolerated sampleEqualRule (stubCloud (.ok []) (.ok []) (.ok ()))
    sampleDesiredRule sampleCloudRule rfl rfl rfl

/-- Witness for C9 at priorities 0 and 17. -/
theorem priority_roundtrip_witness :
    ((NewDesiredRule { priority := 0, hostname := "", ignoreHostHeader := none,
                       path := "", svcName := "web", svcPort := .int 80,
                       targetPort := 0 }).rsDesired.map ElbRule.priority =
      some "default") ∧
    ((NewDesiredRule { priority := 17, hostname := "", ignoreHostHeader := none,
                       path := "", svcName := "web", svcPort := .int 80,
                       targetPort := 0 }).rsDesired.map ElbRule.priority =
      some (intToDecString 17)) ∧
    priority (intToDecString 17) = 17 :=
  ⟨priority_roundtrip.2.1 _ rfl,
   (priority_roundtrip.2.2 { priority := 17, hostname := "",
                             ignoreHostHeader := none, path := "",
                             svcName := "web", svcPort := .int 80,
                             targetPort := 0 } (by decide)).1,
   (priority_roundtrip.2.2 { priority := 17, hostname := "",
                             ignoreHostHeader := none, path := "",
                             svcName := "web", svcPort := .int 80,
                             targetPort := 0 } (by decide)).2.1⟩

/-- Witness for C10 at a concrete rule: a successful create response
with an empty rule list has no defined result, while modify completes. -/
theorem create_unguarded_first_rule_witness :
    (Rule.create sampleEqualRule (stubCloud (.ok []) (.ok []) (.ok ())) none
      = none) ∧
    ((Rule.modify sampleEqualRule (stubCloud (.ok []) (.ok []) (.ok ()))).isSome
      = true) :=
  ⟨create_unguarded_first_rule.1 sampleEqualRule
      (stubCloud (.ok []) (.ok []) (.ok ())) none sampleDesiredRule rfl rfl,
   (create_unguarded_first_rule.2 sampleEqualRule
      (stubCloud (.ok []) (.ok []) (.ok ()))
      sampleDesiredRule sampleCloudRule rfl rfl rfl).1⟩

end AlbIngress
